import Mathlib

/-!
Shallow embedding of the deduplicating persistent store of this repository.

The embedded code:
 - MongoDBManager in mongodb_manager.py: add_article, add_articles_batch,
   the seen_urls ledger helpers (_add_to_seen_urls, _track_duplicate),
   the stats register (_update_stats, _initialize_stats, get_database_stats)
   and the scraper-run tracker (start_scraper_run, update_scraper_run,
   end_scraper_run).
 - The GridFS content-dedup uploads: TwitterMongoManager.upload_media_file
   in unified_app/twitter_mongo_manager.py and
   MediaUploader.upload_file_to_gridfs in upload_media_to_gridfs.py.

Modelling conventions: the MongoDB collections become Lists kept in
insertion order; the unique index on the url field is modelled by the
insert operation failing (taking the DuplicateKeyError branch) exactly
when a document with that url is already present; update_one becomes an
update of the first matching list element; ObjectIds become the value of
a running counter; datetime.now() values are threaded in as explicit
String arguments, since no branch of the embedded code inspects them.
GridFS file documents carry the md5 digest of their content, which is
what the find_one call on the md5 field in both upload functions queries;
the digest function itself is passed as a parameter, since the only fact
the code needs is that it is a function of the raw bytes.
-/

namespace EndlessFeed

/-- An article document. Only url, website_name and scraped_at are ever
inspected by the manager; every other field of the Python dict is carried
untouched in payload. -/
structure Article where
  url : Option String
  website_name : Option String
  scraped_at : Option String
  payload : List (String × String)
  deriving Repr, DecidableEq

/-- The status dictionaries returned by add_article. success carries the
url and the post-insert count of count_documents; duplicate carries the
url (its message field is the constant string Article already exists in
database and is not modelled); error carries the reason string. -/
inductive SubmitResult where
  | success (url : String) (total_articles : Nat)
  | duplicate (url : String)
  | error (reason : String)
  deriving Repr, DecidableEq

/-- One document of the seen_urls collection. -/
structure SeenEntry where
  url : String
  first_seen : String
  last_seen : String
  source : Option String
  seen_count : Nat
  deriving Repr, DecidableEq

/-- Per-source counters inside the stats document (sources.NAME.articles
and sources.NAME.duplicates). -/
structure SourceStats where
  articles : Nat
  duplicates : Nat
  deriving Repr, DecidableEq

/-- The singleton stats document. sources is an association list from
source name to its counters. -/
structure Stats where
  total_articles : Nat
  total_duplicates : Nat
  total_scraper_runs : Nat
  last_updated : String
  sources : List (String × SourceStats)
  deriving Repr, DecidableEq

/-- One document of the scraper_runs collection; id models the ObjectId. -/
structure Run where
  id : Nat
  started_at : String
  status : String
  source : Option String
  articles_scraped : Nat
  duplicates_found : Nat
  errors : Nat
  ended_at : Option String
  deriving Repr, DecidableEq

/-- The four collections of the database plus the ObjectId counter for
scraper runs. stats is an Option: none models a missing stats document
(get_database_stats has an explicit fallback for it, and _update_stats
upserts it). -/
structure DB where
  articles : List Article
  seen_urls : List SeenEntry
  runs : List Run
  next_run_id : Nat
  stats : Option Stats
  deriving Repr, DecidableEq

/-- The stats document written by _initialize_stats on a fresh database,
with t0 the initialization time. -/
def init_stats (t0 : String) : Stats :=
  { total_articles := 0
    total_duplicates := 0
    total_scraper_runs := 0
    last_updated := t0
    sources := [] }

/-- A freshly initialized database: empty collections and the initial
stats document. -/
def init_db (t0 : String) : DB :=
  { articles := []
    seen_urls := []
    runs := []
    next_run_id := 0
    stats := some (init_stats t0) }

/-- Python truthiness of an optional string: None and the empty string
are falsy. -/
def truthy : Option String → Bool
  | none => false
  | some s => !(s == "")

/-- Increment a field of the per-source counters, creating the entry the
way a MongoDB inc on a missing sources.NAME field creates it at 0. -/
def inc_source (sources : List (String × SourceStats)) (src : String)
    (f : SourceStats → SourceStats) : List (String × SourceStats) :=
  if sources.any (fun p => p.1 == src) then
    sources.map (fun p => if p.1 == src then (p.1, f p.2) else p)
  else
    sources ++ [(src, f { articles := 0, duplicates := 0 })]

/-- MongoDBManager._update_stats: build the inc document and apply it to
the singleton stats document with upsert. The per-source branches fire
only when the source argument is truthy, exactly as the Python
if source and added greater than 0 tests do. -/
def update_stats (now : String) (added duplicates : Nat)
    (source : Option String) (st : Option Stats) : Option Stats :=
  let s0 := st.getD
    { total_articles := 0, total_duplicates := 0, total_scraper_runs := 0,
      last_updated := "", sources := [] }
  let s1 := if 0 < added then
    { s0 with total_articles := s0.total_articles + added } else s0
  let s2 := if 0 < duplicates then
    { s1 with total_duplicates := s1.total_duplicates + duplicates } else s1
  let s3 := match source with
    | none => s2
    | some src =>
      let bumpA := fun (c : SourceStats) => { c with articles := c.articles + added }
      let bumpD := fun (c : SourceStats) => { c with duplicates := c.duplicates + duplicates }
      let sA := if src ≠ "" ∧ 0 < added then
        { s2 with sources := inc_source s2.sources src bumpA } else s2
      if src ≠ "" ∧ 0 < duplicates then
        { sA with sources := inc_source sA.sources src bumpD } else sA
  some { s3 with last_updated := now }

/-- update_one semantics on the seen_urls collection: apply f to the
first entry whose url matches, leave everything else alone, do nothing
when no entry matches (no upsert). -/
def update_first_seen (l : List SeenEntry) (url : String)
    (f : SeenEntry → SeenEntry) : List SeenEntry :=
  match l with
  | [] => []
  | e :: rest =>
    if e.url = url then f e :: rest else e :: update_first_seen rest url f

/-- MongoDBManager._add_to_seen_urls: insert a fresh ledger entry with
seen_count one; a DuplicateKeyError from the unique index on url (entry
already present) is swallowed and leaves the collection unchanged. -/
def add_to_seen_urls (now : String) (url : String) (source : Option String)
    (db : DB) : DB :=
  if ∃ e ∈ db.seen_urls, e.url = url then db
  else
    let entry : SeenEntry :=
      { url := url, first_seen := now, last_seen := now,
        source := source, seen_count := 1 }
    { db with seen_urls := db.seen_urls ++ [entry] }

/-- MongoDBManager._track_duplicate: bump last_seen and seen_count of the
ledger entry for url, then bump the stats register with duplicates one.
The source parameter of the Python function is accepted at the call site
but never forwarded to _update_stats, so the per-source duplicate counter
is not touched here. -/
def track_duplicate (now : String) (url : String) (db : DB) : DB :=
  let bump := fun e => { e with last_seen := now, seen_count := e.seen_count + 1 }
  { db with
      seen_urls := update_first_seen db.seen_urls url bump,
      stats := update_stats now 0 1 none db.stats }

/-- The body of MongoDBManager.add_article under the lock, once the url
has been extracted and found non-empty: ledger fast-check, then insert
into articles (the unique index on url makes the insert raise
DuplicateKeyError when a document with that url already exists, which is
the second duplicate branch), then ledger write and stats update. -/
def add_article_locked (now : String) (db : DB) (article : Article)
    (url : String) : SubmitResult × DB :=
  if ∃ e ∈ db.seen_urls, e.url = url then
    (SubmitResult.duplicate url, track_duplicate now url db)
  else if ∃ a ∈ db.articles, a.url = some url then
    (SubmitResult.duplicate url, track_duplicate now url db)
  else
    let article1 := match article.scraped_at with
      | none => { article with scraped_at := some now }
      | some _ => article
    let db1 := { db with articles := db.articles ++ [article1] }
    let db2 := add_to_seen_urls now url article.website_name db1
    let db3 := { db2 with
      stats := update_stats now 1 0 article.website_name db2.stats }
    (SubmitResult.success url db3.articles.length, db3)

/-- MongoDBManager.add_article: a missing or empty url is rejected with
reason missing_url before anything is touched; otherwise the locked body
runs. -/
def add_article (now : String) (db : DB) (article : Article) :
    SubmitResult × DB :=
  match article.url with
  | none => (SubmitResult.error "missing_url", db)
  | some url =>
    if url = "" then (SubmitResult.error "missing_url", db)
    else add_article_locked now db article url

/-- Sequential submission of a list of articles, collecting the results
in order. This is the loop shape shared by add_articles_batch. -/
def submitSeq (now : String) (db : DB) : List Article → List SubmitResult × DB
  | [] => ([], db)
  | a :: rest =>
    let step := add_article now db a
    let tail := submitSeq now step.2 rest
    (step.1 :: tail.1, tail.2)

/-- The summary dictionary built by add_articles_batch. -/
structure BatchSummary where
  total : Nat
  added : Nat
  duplicates : Nat
  errors : Nat
  duplicate_urls : List String
  deriving Repr, DecidableEq

/-- The loop of add_articles_batch: classify each result by its status
field and accumulate counts, appending duplicate urls in order. -/
def batch_go (now : String) (acc : BatchSummary) (db : DB) :
    List Article → BatchSummary × DB
  | [] => (acc, db)
  | a :: rest =>
    let step := add_article now db a
    let acc1 := match step.1 with
      | SubmitResult.success _ _ => { acc with added := acc.added + 1 }
      | SubmitResult.duplicate u =>
        { acc with duplicates := acc.duplicates + 1,
                   duplicate_urls := acc.duplicate_urls ++ [u] }
      | SubmitResult.error _ => { acc with errors := acc.errors + 1 }
    batch_go now acc1 step.2 rest

/-- MongoDBManager.add_articles_batch: total is the input length, the
other counters start at zero. -/
def add_articles_batch (now : String) (db : DB) (articles : List Article) :
    BatchSummary × DB :=
  batch_go now
    { total := articles.length, added := 0, duplicates := 0, errors := 0,
      duplicate_urls := [] }
    db articles

/-- MongoDBManager.start_scraper_run: insert a running run document with
zero counters and inc total_scraper_runs in the stats register (upsert,
no last_updated write); returns the new run id. -/
def start_scraper_run (now : String) (source : Option String) (db : DB) :
    Nat × DB :=
  let run : Run :=
    { id := db.next_run_id, started_at := now, status := "running",
      source := source, articles_scraped := 0, duplicates_found := 0,
      errors := 0, ended_at := none }
  let s0 := db.stats.getD
    { total_articles := 0, total_duplicates := 0, total_scraper_runs := 0,
      last_updated := "", sources := [] }
  let stats1 := some { s0 with total_scraper_runs := s0.total_scraper_runs + 1 }
  let db1 : DB :=
    { db with
        runs := db.runs ++ [run]
        next_run_id := db.next_run_id + 1
        stats := stats1 }
  (db.next_run_id, db1)

/-- update_one semantics on the scraper_runs collection: apply f to the
first run whose id matches. -/
def update_first_run (l : List Run) (run_id : Nat) (f : Run → Run) :
    List Run :=
  match l with
  | [] => []
  | r :: rest =>
    if r.id = run_id then f r :: rest else r :: update_first_run rest run_id f

/-- MongoDBManager.update_scraper_run: apply the positive deltas to the
run counters and optionally set a new status. The run status is never
read: the update is applied whether or not the run has ended. -/
def update_scraper_run (run_id : Nat) (articles duplicates errors : Int)
    (status : Option String) (db : DB) : DB :=
  let apply := fun r =>
    let r1 := if 0 < articles then
      { r with articles_scraped := r.articles_scraped + articles.toNat } else r
    let r2 := if 0 < duplicates then
      { r1 with duplicates_found := r1.duplicates_found + duplicates.toNat } else r1
    let r3 := if 0 < errors then
      { r2 with errors := r2.errors + errors.toNat } else r2
    match status with
    | some st => { r3 with status := st }
    | none => r3
  { db with runs := update_first_run db.runs run_id apply }

/-- MongoDBManager.end_scraper_run: set the final status and ended_at. -/
def end_scraper_run (now : String) (run_id : Nat) (status : String)
    (db : DB) : DB :=
  let close := fun r => { r with status := status, ended_at := some now }
  { db with runs := update_first_run db.runs run_id close }

/-- Largest element of a list of strings, used to model the find_one
sorted by scraped_at descending in get_database_stats. -/
def max_string (l : List String) : Option String :=
  l.foldl (fun m x => match m with
    | none => some x
    | some y => if y < x then some x else some y) none

/-- The dictionary returned by get_database_stats. The fields derived
from the server or the config file (database_size_bytes, storage_engine,
connection_string) are outside the collection state and are not part of
the model. -/
structure StatsView where
  total_articles : Nat
  total_seen_urls : Nat
  total_duplicates : Nat
  total_scraper_runs : Nat
  last_updated : Option String
  sources : List (String × SourceStats)
  deriving Repr, DecidableEq

/-- MongoDBManager.get_database_stats: total_articles, total_seen_urls
and total_scraper_runs come from direct count_documents calls on the
collections; total_duplicates and sources are read from the stats
register document, defaulting to zero and empty when the document or the
field is missing (the explicit fallback dictionary in the source also
carries total_duplicates zero and no sources field, so the two cases
coincide). last_updated is the scraped_at of the newest article. -/
def get_database_stats (db : DB) : StatsView :=
  { total_articles := db.articles.length
    total_seen_urls := db.seen_urls.length
    total_duplicates := (db.stats.map (fun s => s.total_duplicates)).getD 0
    total_scraper_runs := db.runs.length
    last_updated := max_string (db.articles.filterMap (fun a => a.scraped_at))
    sources := (db.stats.map (fun s => s.sources)).getD [] }

/-- A GridFS file document. Content bytes are a list of byte values; md5
holds the digest GridFS computes over the stored bytes at put time,
which is the field both upload functions query for dedup. The optional
metadata fields cover the differing keyword arguments of the two
uploaders. -/
structure GridFSFile where
  id : Nat
  md5 : String
  filename : String
  content_type : String
  content : List Nat
  length : Nat
  tweet_id : Option String
  original_filename : Option String
  upload_date : String
  media_type : Option String
  original_path : Option String
  file_size : Option Nat
  deriving Repr, DecidableEq

/-- The GridFS bucket: file documents in insertion order plus the
ObjectId counter. -/
structure GridFSState where
  files : List GridFSFile
  next_id : Nat
  deriving Repr, DecidableEq

/-- gridfs.find_one on the md5 field: first file whose digest matches. -/
def gridfs_find_md5 (g : GridFSState) (digest : String) : Option GridFSFile :=
  g.files.find? (fun f => f.md5 == digest)

/-- os.path.basename for forward-slash paths. -/
def basename (p : String) : String :=
  ((p.splitOn "/").getLast?).getD p

/-- TwitterMongoManager.upload_media_file. Parameters beyond the source
arguments: digest is the md5 function over raw bytes, guess is
mimetypes.guess_type, fsys is the filesystem (path to content bytes,
none when the file does not exist), now is datetime.now(). Returns the
stringified GridFS id (none on a missing file) and the new bucket
state. -/
def upload_media_file (digest : List Nat → String)
    (guess : String → Option String) (fsys : String → Option (List Nat))
    (now : String) (g : GridFSState)
    (file_path tweet_id media_type : String) : Option String × GridFSState :=
  match fsys file_path with
  | none => (none, g)
  | some content =>
    let filename := basename file_path
    let gridfs_filename := tweet_id ++ "_" ++ filename
    let file_hash := digest content
    match gridfs_find_md5 g file_hash with
    | some existing => (some (toString existing.id), g)
    | none =>
      let content_type := (guess file_path).getD "application/octet-stream"
      let put : GridFSFile :=
        { id := g.next_id, md5 := file_hash, filename := gridfs_filename,
          content_type := content_type, content := content,
          length := content.length, tweet_id := some tweet_id,
          original_filename := some filename, upload_date := now,
          media_type := some media_type, original_path := none,
          file_size := none }
      (some (toString g.next_id),
       { files := g.files ++ [put], next_id := g.next_id + 1 })

/-- The media_info dictionaries built by MediaUploader.scan_media_files,
restricted to the keys upload_file_to_gridfs reads. -/
structure MediaInfo where
  file_path : String
  relative_path : String
  filename : String
  size : Nat
  extension : String
  deriving Repr, DecidableEq

/-- The self.stats counters of MediaUploader. -/
structure UploaderStats where
  files_found : Nat
  files_uploaded : Nat
  files_skipped : Nat
  files_failed : Nat
  total_size_uploaded : Nat
  duplicates_detected : Nat
  deriving Repr, DecidableEq

/-- The video extension set used for the media_type keyword argument. -/
def video_extensions : List String :=
  [".mp4", ".mov", ".avi", ".mkv", ".webm", ".flv", ".wmv"]

/-- MediaUploader.upload_file_to_gridfs. In dry-run mode nothing is
touched and the constant id dry_run_id is returned. A missing file makes
the open call raise, which the except block turns into a files_failed
count and a none result. Otherwise: md5 fast-check, returning the
existing id on a hit (counting a detected duplicate and a skipped file),
or a fresh put (counting an upload and its size) on a miss. -/
def upload_file_to_gridfs (digest : List Nat → String)
    (guess : String → Option String) (fsys : String → Option (List Nat))
    (now : String) (dry_run : Bool) (g : GridFSState) (st : UploaderStats)
    (mi : MediaInfo) : Option String × GridFSState × UploaderStats :=
  if dry_run then (some "dry_run_id", g, st)
  else
    match fsys mi.file_path with
    | none => (none, g, { st with files_failed := st.files_failed + 1 })
    | some content =>
      let file_hash := digest content
      match gridfs_find_md5 g file_hash with
      | some existing =>
        let st1 :=
          { st with
              duplicates_detected := st.duplicates_detected + 1
              files_skipped := st.files_skipped + 1 }
        (some (toString existing.id), g, st1)
      | none =>
        let content_type := (guess mi.file_path).getD "application/octet-stream"
        let mtype := if video_extensions.contains mi.extension then "video" else "photo"
        let put : GridFSFile :=
          { id := g.next_id, md5 := file_hash, filename := mi.filename,
            content_type := content_type, content := content,
            length := content.length, tweet_id := none,
            original_filename := none, upload_date := now,
            media_type := some mtype,
            original_path := some mi.relative_path,
            file_size := some mi.size }
        let st1 :=
          { st with
              files_uploaded := st.files_uploaded + 1
              total_size_uploaded := st.total_size_uploaded + mi.size }
        (some (toString g.next_id),
         { files := g.files ++ [put], next_id := g.next_id + 1 }, st1)

/-- Number of stored articles carrying the given url. -/
def count_with_url (db : DB) (url : String) : Nat :=
  db.articles.countP (fun a => a.url == some url)

/-- A ledger entry for the given key exists. -/
def seen_has (db : DB) (url : String) : Prop :=
  ∃ e ∈ db.seen_urls, e.url = url

instance (db : DB) (url : String) : Decidable (seen_has db url) := by
  unfold seen_has; infer_instance

/-- Status classifiers matching the result status field tests of
add_articles_batch. -/
def is_success : SubmitResult → Bool
  | SubmitResult.success _ _ => true
  | _ => false

def is_dup : SubmitResult → Bool
  | SubmitResult.duplicate _ => true
  | _ => false

def is_err : SubmitResult → Bool
  | SubmitResult.error _ => true
  | _ => false

/-- The url extracted from a duplicate result. -/
def dup_url : SubmitResult → Option String
  | SubmitResult.duplicate u => some u
  | _ => none

/-- Concrete articles for evaluating the operations at specific inputs. -/
def art_u : Article :=
  { url := some "u", website_name := some "X", scraped_at := none, payload := [] }

def art_v : Article :=
  { url := some "v", website_name := some "Y", scraped_at := none, payload := [] }

def art_missing : Article :=
  { url := none, website_name := some "X", scraped_at := none, payload := [] }

/-- Concrete blob-store inputs for evaluating the upload functions. -/
def demo_digest : List Nat → String := fun l => toString l.length

def demo_fsys : String → Option (List Nat) :=
  fun p => if p = "a/f1.jpg" ∨ p = "b/f2.jpg" then some [1, 2] else none

def demo_info1 : MediaInfo :=
  { file_path := "a/f1.jpg", relative_path := "a/f1.jpg", filename := "f1.jpg",
    size := 2, extension := ".jpg" }

def demo_info2 : MediaInfo :=
  { file_path := "b/f2.jpg", relative_path := "b/f2.jpg", filename := "f2.jpg",
    size := 2, extension := ".jpg" }

def zero_uploader_stats : UploaderStats :=
  { files_found := 0, files_uploaded := 0, files_skipped := 0,
    files_failed := 0, total_size_uploaded := 0, duplicates_detected := 0 }

/-! Helper lemmas about the embedded operations. -/

theorem submitSeq_cons (now : String) (db : DB) (a : Article)
    (rest : List Article) :
    submitSeq now db (a :: rest) =
      ((add_article now db a).1 ::
        (submitSeq now (add_article now db a).2 rest).1,
       (submitSeq now (add_article now db a).2 rest).2) := rfl

theorem track_duplicate_articles (now url : String) (db : DB) :
    (track_duplicate now url db).articles = db.articles := rfl

/-- When the article carries a key that is already stored or already in
the ledger, add_article classifies it as a duplicate and the item
collection is untouched. -/
theorem add_article_dup_of_seen (now : String) (db : DB) (a : Article)
    (url : String) (ha : a.url = some url) (hne : url ≠ "")
    (h : seen_has db url) :
    add_article now db a = (SubmitResult.duplicate url, track_duplicate now url db) := by
  have h2 : ∃ e ∈ db.seen_urls, e.url = url := h
  unfold add_article
  rw [ha]
  simp only [if_neg hne]
  unfold add_article_locked
  rw [if_pos h2]

/-! C5 -/

/-- C5: a submission whose key is absent or empty is rejected with the
missing-key reason (the status error, reason missing_url dictionary of
the source) and the database state is returned exactly unchanged: no
item, ledger or register write happens. -/
theorem c5_missing_key_rejected (now : String) (db : DB) (a : Article)
    (h : a.url = none ∨ a.url = some "") :
    add_article now db a = (SubmitResult.error "missing_url", db) := by
  rcases h with h | h <;> simp [add_article, h]

theorem c5_missing_key_rejected_witness :
    add_article "t" (init_db "t0") art_missing
      = (SubmitResult.error "missing_url", init_db "t0") :=
  c5_missing_key_rejected "t" (init_db "t0") art_missing (Or.inl rfl)

/-! C9 -/

/-- C9: the total-items figure of get_database_stats is the direct count
over the articles collection, for every database state, and it does not
change when the stats register document is replaced by anything
(including a missing document): the register never feeds this figure. -/
theorem c9_snapshot_direct_count (db : DB) (st : Option Stats) :
    (get_database_stats db).total_articles = db.articles.length ∧
    (get_database_stats { db with stats := st }).total_articles
      = db.articles.length :=
  ⟨rfl, rfl⟩

/-! C3 -/

/-- C3 fails on the code: after end_scraper_run has closed the run, a
further update_scraper_run call is not rejected; at this concrete input
it increments the closed run counter articles_scraped from 0 to 1. -/
theorem c3_counterexample :
    (update_scraper_run 0 1 0 0 none
        (end_scraper_run "t2" 0 "completed"
          (start_scraper_run "t1" (some "X") (init_db "t0")).2)).runs
      = [{ id := 0, started_at := "t1", status := "completed",
           source := some "X", articles_scraped := 1, duplicates_found := 0,
           errors := 0, ended_at := some "t2" }] := by decide

/-- C3 amended: update_scraper_run never reads the run status, so a call
on a run closed by end_scraper_run is not rejected; its positive deltas
are applied to the run counters exactly as on a running run, and the
closed status and end time are kept. -/
theorem c3_amended_update_applies (t0 n1 n2 : String) (src : Option String)
    (a d e : Int) (ha : 0 < a) :
    (update_scraper_run (start_scraper_run n1 src (init_db t0)).1 a d e none
        (end_scraper_run n2 (start_scraper_run n1 src (init_db t0)).1
          "completed" (start_scraper_run n1 src (init_db t0)).2)).runs
      = [{ id := 0, started_at := n1, status := "completed", source := src,
           articles_scraped := a.toNat,
           duplicates_found := if 0 < d then d.toNat else 0,
           errors := if 0 < e then e.toNat else 0,
           ended_at := some n2 }] := by
  simp [start_scraper_run, end_scraper_run, update_scraper_run, init_db,
    update_first_run, ha]
  split_ifs <;> simp

theorem c3_amended_update_applies_witness :
    (update_scraper_run (start_scraper_run "t1" (some "X") (init_db "t0")).1
        1 0 0 none
        (end_scraper_run "t2" (start_scraper_run "t1" (some "X") (init_db "t0")).1
          "completed" (start_scraper_run "t1" (some "X") (init_db "t0")).2)).runs
      = [{ id := 0, started_at := "t1", status := "completed",
           source := some "X", articles_scraped := (1 : Int).toNat,
           duplicates_found := if (0 : Int) < 0 then (0 : Int).toNat else 0,
           errors := if (0 : Int) < 0 then (0 : Int).toNat else 0,
           ended_at := some "t2" }] :=
  c3_amended_update_applies "t0" "t1" "t2" (some "X") 1 0 0 (by decide)

/-! C4 -/

/-- C4 is the intent but the code drops the source on the duplicate
path: _track_duplicate receives the source from add_article yet calls
_update_stats without it, so at this failing input the duplicate
submission of an article from source X leaves sources.X.duplicates at 0
while total_duplicates does reach 1. -/
theorem c4_per_source_duplicates_not_incremented :
    (add_article "t2" (add_article "t1" (init_db "t0") art_u).2 art_u).1
        = SubmitResult.duplicate "u" ∧
    (add_article "t2" (add_article "t1" (init_db "t0") art_u).2 art_u).2.stats
        = some { total_articles := 1, total_duplicates := 1,
                 total_scraper_runs := 0, last_updated := "t2",
                 sources := [("X", { articles := 1, duplicates := 0 })] } := by
  decide

/-! C1 -/

theorem add_to_seen_urls_articles (now url : String) (s : Option String)
    (db : DB) :
    (add_to_seen_urls now url s db).articles = db.articles := by
  unfold add_to_seen_urls
  split <;> rfl

/-- One add_article call keeps the per-key item count at most one: the
duplicate and error paths leave the item collection unchanged, and the
insert path only fires when no item with the key is present. -/
theorem add_article_count_le (now : String) (db : DB) (a : Article)
    (u : String) (h : count_with_url db u ≤ 1) :
    count_with_url (add_article now db a).2 u ≤ 1 := by
  cases ha : a.url with
  | none => simpa [add_article, ha] using h
  | some url =>
    by_cases h0 : url = ""
    · simpa [add_article, ha, h0] using h
    · have hstep : add_article now db a = add_article_locked now db a url := by
        simp [add_article, ha, h0]
      rw [hstep]
      unfold add_article_locked
      by_cases hs : ∃ e ∈ db.seen_urls, e.url = url
      · rw [if_pos hs]; exact h
      · rw [if_neg hs]
        by_cases hart : ∃ x ∈ db.articles, x.url = some url
        · rw [if_pos hart]; exact h
        · rw [if_neg hart]
          have harts : ∀ a1 : Article, a1.url = some url →
              (db.articles ++ [a1]).countP (fun x => x.url == some u) ≤ 1 := by
            intro a1 ha1
            rw [List.countP_append]
            by_cases hu : u = url
            · subst hu
              have h0c : db.articles.countP (fun x => x.url == some u) = 0 := by
                rw [List.countP_eq_zero]
                intro x hx
                simp only [beq_iff_eq]
                intro hxx
                exact hart ⟨x, hx, hxx⟩
              simp [h0c, ha1]
            · have h1c : List.countP (fun x => x.url == some u) [a1] = 0 := by
                simp [ha1]
                exact fun hh => hu hh.symm
              have := h
              unfold count_with_url at this
              omega
          simp only [count_with_url, add_to_seen_urls_articles]
          cases hsc : a.scraped_at with
          | none => exact harts _ (by simpa using ha)
          | some v => exact harts _ ha

theorem submitSeq_count_le (now u : String) (arts : List Article) :
    ∀ db : DB, count_with_url db u ≤ 1 →
      count_with_url (submitSeq now db arts).2 u ≤ 1 := by
  induction arts with
  | nil => intro db h; exact h
  | cons a rest ih =>
    intro db h
    rw [submitSeq_cons]
    exact ih _ (add_article_count_le now db a u h)

/-- C1: starting from a fresh database, after any sequence of add_article
calls at most one stored item carries any given key; moreover whenever a
key is already present, through the ledger fast-check or through the
unique-index violation on the articles collection, the submission
returns the duplicate outcome and the item collection is unchanged. -/
theorem c1_item_uniqueness (t0 now : String) (arts : List Article)
    (u : String) :
    count_with_url (submitSeq now (init_db t0) arts).2 u ≤ 1 ∧
    ∀ (db : DB) (a : Article), a.url = some u → u ≠ "" →
      (seen_has db u ∨ ∃ x ∈ db.articles, x.url = some u) →
      (add_article now db a).1 = SubmitResult.duplicate u ∧
      (add_article now db a).2.articles = db.articles := by
  constructor
  · exact submitSeq_count_le now u arts (init_db t0)
      (by simp [count_with_url, init_db])
  · intro db a ha hne hdup
    by_cases hs : seen_has db u
    · rw [add_article_dup_of_seen now db a u ha hne hs]
      exact ⟨rfl, rfl⟩
    · have hart : ∃ x ∈ db.articles, x.url = some u := by
        rcases hdup with hs2 | hart
        · exact absurd hs2 hs
        · exact hart
      have hs2 : ¬ ∃ e ∈ db.seen_urls, e.url = u := hs
      have hstep : add_article now db a = add_article_locked now db a u := by
        simp [add_article, ha, hne]
      rw [hstep]
      unfold add_article_locked
      rw [if_neg hs2, if_pos hart]
      exact ⟨rfl, rfl⟩

theorem c1_item_uniqueness_witness :
    count_with_url (submitSeq "t" (init_db "t0") [art_u, art_u]).2 "u" ≤ 1 ∧
    (add_article "t" (add_article "t" (init_db "t0") art_u).2 art_u).1
      = SubmitResult.duplicate "u" := by
  have h := c1_item_uniqueness "t0" "t" [art_u, art_u] "u"
  exact ⟨h.1, (h.2 (add_article "t" (init_db "t0") art_u).2 art_u (by decide)
    (by decide) (Or.inl (by decide))).1⟩

/-! C2 -/

/-- The first submission of a valid key on a fresh database succeeds,
reports a total of one item and writes the ledger entry with occurrence
count one. -/
theorem first_submit_success (t0 now url : String) (a : Article)
    (ha : a.url = some url) (hne : url ≠ "") :
    (add_article now (init_db t0) a).1 = SubmitResult.success url 1 ∧
    (add_article now (init_db t0) a).2.seen_urls
      = [{ url := url, first_seen := now, last_seen := now,
           source := a.website_name, seen_count := 1 }] := by
  have hstep : add_article now (init_db t0) a
      = add_article_locked now (init_db t0) a url := by
    simp [add_article, ha, hne]
  rw [hstep]
  constructor <;> simp [add_article_locked, init_db, add_to_seen_urls]

/-- Submitting the same valid key m further times against a database
whose ledger holds exactly its entry yields m duplicate outcomes and
adds m to the occurrence count, touching nothing else of the entry but
the last-seen time. -/
theorem submit_replicate_dups (now url : String) (a : Article)
    (ha : a.url = some url) (hne : url ≠ "") :
    ∀ (m : Nat) (db : DB) (f l : String) (s : Option String) (c : Nat),
      db.seen_urls = [{ url := url, first_seen := f, last_seen := l,
                        source := s, seen_count := c }] →
      (submitSeq now db (List.replicate m a)).1
        = List.replicate m (SubmitResult.duplicate url) ∧
      ∃ l2, (submitSeq now db (List.replicate m a)).2.seen_urls
        = [{ url := url, first_seen := f, last_seen := l2,
             source := s, seen_count := c + m }] := by
  intro m
  induction m with
  | zero =>
    intro db f l s c hseen
    exact ⟨rfl, ⟨l, by simpa using hseen⟩⟩
  | succ m ih =>
    intro db f l s c hseen
    have hs : seen_has db url := by
      unfold seen_has
      rw [hseen]
      exact ⟨{ url := url, first_seen := f, last_seen := l, source := s,
               seen_count := c }, by simp, rfl⟩
    have hstep := add_article_dup_of_seen now db a url ha hne hs
    have hseen2 : (track_duplicate now url db).seen_urls
        = [{ url := url, first_seen := f, last_seen := now, source := s,
             seen_count := c + 1 }] := by
      simp [track_duplicate, hseen, update_first_seen]
    obtain ⟨ih1, l2, ih2⟩ := ih (track_duplicate now url db) f now s (c + 1) hseen2
    rw [List.replicate_succ, submitSeq_cons, hstep]
    have hc : c + 1 + m = c + (m + 1) := by omega
    rw [hc] at ih2
    exact ⟨by simp [ih1, List.replicate_succ], ⟨l2, by simpa using ih2⟩⟩

/-- C2: submitting the same item with a non-empty key N times from a
fresh database yields exactly one success outcome, on the first call,
then N minus one duplicate outcomes, and leaves the ledger entry for the
key with seen_count N. -/
theorem c2_idempotent_duplicates (t0 now url : String) (a : Article)
    (N : Nat) (ha : a.url = some url) (hne : url ≠ "") (hN : 1 ≤ N) :
    (submitSeq now (init_db t0) (List.replicate N a)).1
      = SubmitResult.success url 1
          :: List.replicate (N - 1) (SubmitResult.duplicate url) ∧
    ∃ l2, (submitSeq now (init_db t0) (List.replicate N a)).2.seen_urls
      = [{ url := url, first_seen := now, last_seen := l2,
           source := a.website_name, seen_count := N }] := by
  obtain ⟨m, rfl⟩ : ∃ m, N = m + 1 := ⟨N - 1, by omega⟩
  obtain ⟨h1, h2⟩ := first_submit_success t0 now url a ha hne
  obtain ⟨r1, l2, r2⟩ := submit_replicate_dups now url a ha hne m
    (add_article now (init_db t0) a).2 now now a.website_name 1 h2
  rw [List.replicate_succ, submitSeq_cons]
  have hc : 1 + m = m + 1 := by omega
  rw [hc] at r2
  refine ⟨?_, ⟨l2, ?_⟩⟩
  · simp [h1, r1]
  · simpa using r2

theorem c2_idempotent_duplicates_witness :
    ((submitSeq "t" (init_db "t0") (List.replicate 3 art_u)).1
      = SubmitResult.success "u" 1
          :: List.replicate 2 (SubmitResult.duplicate "u")) ∧
    ∃ l2, (submitSeq "t" (init_db "t0") (List.replicate 3 art_u)).2.seen_urls
      = [{ url := "u", first_seen := "t", last_seen := l2,
           source := art_u.website_name, seen_count := 3 }] := by
  have h := c2_idempotent_duplicates "t0" "t" "u" art_u 3 (by decide)
    (by decide) (by decide)
  simpa using h

/-! C7 -/

/-- An update_one on the ledger that preserves entry keys preserves
which keys are present. -/
theorem update_first_seen_has (l : List SeenEntry) (url u : String)
    (g : SeenEntry → SeenEntry) (hg : ∀ e, (g e).url = e.url) :
    (∃ e ∈ update_first_seen l url g, e.url = u) ↔ (∃ e ∈ l, e.url = u) := by
  induction l with
  | nil => simp [update_first_seen]
  | cons e rest ih =>
    unfold update_first_seen
    by_cases he : e.url = url
    · rw [if_pos he]
      simp [hg]
    · rw [if_neg he]
      simp only [List.mem_cons]
      constructor
      · rintro ⟨x, hx | hx, hxu⟩
        · exact ⟨x, Or.inl hx, hxu⟩
        · obtain ⟨y, hy, hyu⟩ := ih.mp ⟨x, hx, hxu⟩
          exact ⟨y, Or.inr hy, hyu⟩
      · rintro ⟨x, hx | hx, hxu⟩
        · exact ⟨x, Or.inl hx, hxu⟩
        · obtain ⟨y, hy, hyu⟩ := ih.mpr ⟨x, hx, hxu⟩
          exact ⟨y, Or.inr hy, hyu⟩

/-- One add_article call changes which keys the ledger holds exactly by
the key of a successful insert: the rejected path and both duplicate
paths leave the ledger key set unchanged. -/
theorem add_article_seen_iff (now : String) (db : DB) (a : Article)
    (u : String) :
    seen_has (add_article now db a).2 u ↔
      (seen_has db u ∨
        ∃ t, (add_article now db a).1 = SubmitResult.success u t) := by
  cases ha : a.url with
  | none => simp [add_article, ha, seen_has]
  | some url =>
    by_cases h0 : url = ""
    · simp [add_article, ha, h0, seen_has]
    · have hstep : add_article now db a = add_article_locked now db a url := by
        simp [add_article, ha, h0]
      rw [hstep]
      unfold add_article_locked
      by_cases hs : ∃ e ∈ db.seen_urls, e.url = url
      · rw [if_pos hs]
        unfold seen_has track_duplicate
        constructor
        · intro h
          exact Or.inl ((update_first_seen_has db.seen_urls url u
              (fun e => { e with last_seen := now, seen_count := e.seen_count + 1 })
            (fun e => rfl)).mp (by simpa using h))
        · rintro (h | ⟨t, ht⟩)
          · simpa using (update_first_seen_has db.seen_urls url u
              (fun e => { e with last_seen := now, seen_count := e.seen_count + 1 })
              (fun e => rfl)).mpr h
          · exact absurd ht (by simp)
      · rw [if_neg hs]
        by_cases hart : ∃ x ∈ db.articles, x.url = some url
        · rw [if_pos hart]
          unfold seen_has track_duplicate
          constructor
          · intro h
            exact Or.inl ((update_first_seen_has db.seen_urls url u
              (fun e => { e with last_seen := now, seen_count := e.seen_count + 1 })
              (fun e => rfl)).mp (by simpa using h))
          · rintro (h | ⟨t, ht⟩)
            · simpa using (update_first_seen_has db.seen_urls url u
              (fun e => { e with last_seen := now, seen_count := e.seen_count + 1 })
                (fun e => rfl)).mpr h
            · exact absurd ht (by simp)
        · rw [if_neg hart]
          unfold seen_has
          simp only [add_to_seen_urls]
          rw [if_neg (by simpa using hs)]
          simp only [List.mem_append, List.mem_singleton]
          constructor
          · rintro ⟨x, hx | hx, hxu⟩
            · exact Or.inl ⟨x, hx, hxu⟩
            · subst hx
              have huu : url = u := hxu
              subst huu
              exact Or.inr ⟨_, rfl⟩
          · rintro (⟨x, hx, hxu⟩ | ⟨t, ht⟩)
            · exact ⟨x, Or.inl hx, hxu⟩
            · refine ⟨{ url := url, first_seen := now, last_seen := now,
                        source := a.website_name, seen_count := 1 }, Or.inr rfl, ?_⟩
              have := (SubmitResult.success.injEq _ _ _ _).mp ht
              exact this.1

/-- Over a whole submission sequence the ledger keys are the initial
keys plus the keys of the successful submissions. -/
theorem submitSeq_seen_iff (now u : String) (arts : List Article) :
    ∀ db : DB, seen_has (submitSeq now db arts).2 u ↔
      (seen_has db u ∨
        ∃ t, SubmitResult.success u t ∈ (submitSeq now db arts).1) := by
  induction arts with
  | nil => intro db; simp [submitSeq]
  | cons a rest ih =>
    intro db
    rw [submitSeq_cons]
    constructor
    · intro h
      rcases (ih _).mp h with h1 | ⟨t, ht⟩
      · rcases (add_article_seen_iff now db a u).mp h1 with h2 | ⟨t, ht⟩
        · exact Or.inl h2
        · exact Or.inr ⟨t, by rw [ht]; simp⟩
      · exact Or.inr ⟨t, List.mem_cons_of_mem _ ht⟩
    · rintro (hS | ⟨t, ht⟩)
      · exact (ih _).mpr (Or.inl
          ((add_article_seen_iff now db a u).mpr (Or.inl hS)))
      · rcases List.mem_cons.mp ht with h1 | h1
        · exact (ih _).mpr (Or.inl
            ((add_article_seen_iff now db a u).mpr (Or.inr ⟨t, h1.symm⟩)))
        · exact (ih _).mpr (Or.inr ⟨t, h1⟩)

/-- C7: starting from a fresh database, a ledger entry for a key exists
after a submission sequence exactly when some submission of that key
returned the success outcome: duplicates and rejections never create a
ledger entry, and every successful insert does. -/
theorem c7_seen_iff_inserted (t0 now u : String) (arts : List Article) :
    seen_has (submitSeq now (init_db t0) arts).2 u ↔
      ∃ t, SubmitResult.success u t ∈ (submitSeq now (init_db t0) arts).1 := by
  rw [submitSeq_seen_iff]
  simp [seen_has, init_db]

/-! C8 and C10 -/

theorem submitSeq_length (now : String) (arts : List Article) :
    ∀ db : DB, (submitSeq now db arts).1.length = arts.length := by
  induction arts with
  | nil => intro db; rfl
  | cons a rest ih =>
    intro db
    rw [submitSeq_cons]
    simp [ih]

theorem submitSeq_append (now : String) (xs ys : List Article) :
    ∀ db : DB,
      submitSeq now db (xs ++ ys)
        = ((submitSeq now db xs).1
             ++ (submitSeq now (submitSeq now db xs).2 ys).1,
           (submitSeq now (submitSeq now db xs).2 ys).2) := by
  induction xs with
  | nil => intro db; simp [submitSeq]
  | cons a rest ih =>
    intro db
    rw [List.cons_append, submitSeq_cons, ih, submitSeq_cons]
    simp

/-- Every submission result is classified by exactly one of the three
status tests of the batch loop. -/
theorem submit_results_partition (l : List SubmitResult) :
    (l.filter is_success).length + (l.filter is_dup).length
        + (l.filter is_err).length = l.length := by
  induction l with
  | nil => rfl
  | cons r rest ih =>
    cases r <;>
      simp [is_success, is_dup, is_err, List.filter_cons] <;> omega

/-- The duplicate url list collects exactly one url per duplicate
result. -/
theorem dup_urls_length (l : List SubmitResult) :
    (l.filterMap dup_url).length = (l.filter is_dup).length := by
  induction l with
  | nil => rfl
  | cons r rest ih =>
    cases r <;>
      simp [dup_url, is_dup, List.filterMap_cons, List.filter_cons, ih]

/-- The batch loop is the sequential submission loop plus counting: it
processes every input item, and its counters count the results by
status. -/
theorem batch_go_spec (now : String) (arts : List Article) :
    ∀ (acc : BatchSummary) (db : DB),
      batch_go now acc db arts =
        ({ total := acc.total,
           added := acc.added
             + ((submitSeq now db arts).1.filter is_success).length,
           duplicates := acc.duplicates
             + ((submitSeq now db arts).1.filter is_dup).length,
           errors := acc.errors
             + ((submitSeq now db arts).1.filter is_err).length,
           duplicate_urls := acc.duplicate_urls
             ++ (submitSeq now db arts).1.filterMap dup_url },
         (submitSeq now db arts).2) := by
  induction arts with
  | nil =>
    intro acc db
    simp [batch_go, submitSeq]
  | cons a rest ih =>
    intro acc db
    cases hr : (add_article now db a).1 with
    | success url tot =>
      simp only [batch_go, hr]
      rw [ih, submitSeq_cons]
      simp [hr, is_success, is_dup, is_err, dup_url, List.filter_cons,
        List.filterMap_cons]
      omega
    | duplicate url =>
      simp only [batch_go, hr]
      rw [ih, submitSeq_cons]
      simp [hr, is_success, is_dup, is_err, dup_url, List.filter_cons,
        List.filterMap_cons]
      omega
    | error reason =>
      simp only [batch_go, hr]
      rw [ih, submitSeq_cons]
      simp [hr, is_success, is_dup, is_err, dup_url, List.filter_cons,
        List.filterMap_cons]
      omega

/-- add_articles_batch in closed form: result counts are the counts of
the per-item outcomes over the whole input, and the final state is the
state after submitting every item in order. -/
theorem add_articles_batch_spec (now : String) (db : DB)
    (arts : List Article) :
    add_articles_batch now db arts =
      ({ total := arts.length,
         added := ((submitSeq now db arts).1.filter is_success).length,
         duplicates := ((submitSeq now db arts).1.filter is_dup).length,
         errors := ((submitSeq now db arts).1.filter is_err).length,
         duplicate_urls := (submitSeq now db arts).1.filterMap dup_url },
       (submitSeq now db arts).2) := by
  rw [add_articles_batch, batch_go_spec]
  simp

/-- C8: add_articles_batch applies add_article to every item
independently: over a split input the items after any prefix are
processed exactly as if submitted from the state the prefix left behind,
whatever mix of success, duplicate and error outcomes the prefix
produced (add_article returns an error status instead of raising, so the
loop never aborts), and the summary counts each outcome over the whole
input. -/
theorem c8_batch_fail_independent (now : String) (db : DB)
    (xs ys : List Article) :
    (add_articles_batch now db (xs ++ ys)).1.total = xs.length + ys.length ∧
    (add_articles_batch now db (xs ++ ys)).1.added
      = (add_articles_batch now db xs).1.added
        + (add_articles_batch now (add_articles_batch now db xs).2 ys).1.added ∧
    (add_articles_batch now db (xs ++ ys)).1.duplicates
      = (add_articles_batch now db xs).1.duplicates
        + (add_articles_batch now (add_articles_batch now db xs).2 ys).1.duplicates ∧
    (add_articles_batch now db (xs ++ ys)).1.errors
      = (add_articles_batch now db xs).1.errors
        + (add_articles_batch now (add_articles_batch now db xs).2 ys).1.errors ∧
    (add_articles_batch now db (xs ++ ys)).1.duplicate_urls
      = (add_articles_batch now db xs).1.duplicate_urls
        ++ (add_articles_batch now (add_articles_batch now db xs).2 ys).1.duplicate_urls ∧
    (add_articles_batch now db (xs ++ ys)).2
      = (add_articles_batch now (add_articles_batch now db xs).2 ys).2 := by
  simp [add_articles_batch_spec, submitSeq_append now xs ys,
    List.filter_append, List.filterMap_append]

/-- C10: the batch summary is coherent: total is the input length, the
three outcome counters sum to the total, and the duplicate url list has
exactly one entry per counted duplicate. -/
theorem c10_batch_summary (now : String) (db : DB) (arts : List Article) :
    (add_articles_batch now db arts).1.total = arts.length ∧
    (add_articles_batch now db arts).1.added
        + (add_articles_batch now db arts).1.duplicates
        + (add_articles_batch now db arts).1.errors
      = (add_articles_batch now db arts).1.total ∧
    (add_articles_batch now db arts).1.duplicate_urls.length
      = (add_articles_batch now db arts).1.duplicates := by
  rw [add_articles_batch_spec]
  refine ⟨rfl, ?_, ?_⟩
  · show ((submitSeq now db arts).1.filter is_success).length
        + ((submitSeq now db arts).1.filter is_dup).length
        + ((submitSeq now db arts).1.filter is_err).length = arts.length
    have h1 := submit_results_partition (submitSeq now db arts).1
    have h2 := submitSeq_length now arts db
    omega
  · exact dup_urls_length _

/-! C6 -/

/-- C6: content dedup of the blob store. With both paths holding byte
identical content and no blob of that content present yet, the first
upload stores one blob under the id of the running counter and the
second upload, under any other filename, tweet id, media kind or scan
metadata, returns exactly the same reference, leaves the bucket
unchanged and the bucket holds exactly one blob with that content
digest. This holds for TwitterMongoManager.upload_media_file and for
MediaUploader.upload_file_to_gridfs alike. -/
theorem c6_content_dedup (digest : List Nat → String)
    (guess : String → Option String) (fsys : String → Option (List Nat))
    (n1 n2 : String) (g : GridFSState) (p1 p2 t1 t2 m1 m2 : String)
    (c : List Nat) (st : UploaderStats) (mi1 mi2 : MediaInfo)
    (h1 : fsys p1 = some c) (h2 : fsys p2 = some c)
    (hg : gridfs_find_md5 g (digest c) = none)
    (h3 : fsys mi1.file_path = some c) (h4 : fsys mi2.file_path = some c) :
    (upload_media_file digest guess fsys n1 g p1 t1 m1).1
        = some (toString g.next_id) ∧
    (upload_media_file digest guess fsys n2
        (upload_media_file digest guess fsys n1 g p1 t1 m1).2 p2 t2 m2).1
      = (upload_media_file digest guess fsys n1 g p1 t1 m1).1 ∧
    (upload_media_file digest guess fsys n2
        (upload_media_file digest guess fsys n1 g p1 t1 m1).2 p2 t2 m2).2
      = (upload_media_file digest guess fsys n1 g p1 t1 m1).2 ∧
    ((upload_media_file digest guess fsys n1 g p1 t1 m1).2.files.filter
        (fun f => f.md5 == digest c)).length = 1 ∧
    (upload_file_to_gridfs digest guess fsys n1 false g st mi1).1
        = some (toString g.next_id) ∧
    (upload_file_to_gridfs digest guess fsys n2 false
        (upload_file_to_gridfs digest guess fsys n1 false g st mi1).2.1
        (upload_file_to_gridfs digest guess fsys n1 false g st mi1).2.2 mi2).1
      = (upload_file_to_gridfs digest guess fsys n1 false g st mi1).1 ∧
    (upload_file_to_gridfs digest guess fsys n2 false
        (upload_file_to_gridfs digest guess fsys n1 false g st mi1).2.1
        (upload_file_to_gridfs digest guess fsys n1 false g st mi1).2.2 mi2).2.1
      = (upload_file_to_gridfs digest guess fsys n1 false g st mi1).2.1 ∧
    ((upload_file_to_gridfs digest guess fsys n1 false g st mi1).2.1.files.filter
        (fun f => f.md5 == digest c)).length = 1 := by
  have hg2 : g.files.find? (fun f => f.md5 == digest c) = none := hg
  have hfilter : g.files.filter (fun f => f.md5 == digest c) = [] := by
    rw [List.filter_eq_nil_iff]
    exact List.find?_eq_none.mp hg2
  have hone : ∀ x : GridFSFile, x.md5 = digest c →
      ((g.files ++ [x]).filter (fun f => f.md5 == digest c)).length = 1 := by
    intro x hx
    rw [List.filter_append, hfilter]
    simp [hx]
  have e1 : upload_media_file digest guess fsys n1 g p1 t1 m1
      = (some (toString g.next_id),
         { files := g.files ++
             [{ id := g.next_id, md5 := digest c,
                filename := t1 ++ "_" ++ basename p1,
                content_type := (guess p1).getD "application/octet-stream",
                content := c, length := c.length, tweet_id := some t1,
                original_filename := some (basename p1), upload_date := n1,
                media_type := some m1, original_path := none,
                file_size := none }],
           next_id := g.next_id + 1 }) := by
    simp only [upload_media_file, h1, gridfs_find_md5]
    rw [hg2]
  have e2 : ∀ (x : GridFSFile), x.md5 = digest c → ∀ g2 : GridFSState,
      g2.files = g.files ++ [x] →
      upload_media_file digest guess fsys n2 g2 p2 t2 m2
        = (some (toString x.id), g2) := by
    intro x hx g2 hg2eq
    simp only [upload_media_file, h2, gridfs_find_md5, hg2eq]
    rw [List.find?_append, hg2]
    simp [hx]
  have e3 : upload_file_to_gridfs digest guess fsys n1 false g st mi1
      = (some (toString g.next_id),
         { files := g.files ++
             [{ id := g.next_id, md5 := digest c, filename := mi1.filename,
                content_type :=
                  (guess mi1.file_path).getD "application/octet-stream",
                content := c, length := c.length, tweet_id := none,
                original_filename := none, upload_date := n1,
                media_type := some (if video_extensions.contains mi1.extension
                  then "video" else "photo"),
                original_path := some mi1.relative_path,
                file_size := some mi1.size }],
           next_id := g.next_id + 1 },
         { st with files_uploaded := st.files_uploaded + 1,
                   total_size_uploaded := st.total_size_uploaded + mi1.size }) := by
    simp only [upload_file_to_gridfs, h3, gridfs_find_md5, Bool.false_eq_true,
      if_false]
    rw [hg2]
  have e4 : ∀ (x : GridFSFile), x.md5 = digest c →
      ∀ (g2 : GridFSState) (st2 : UploaderStats), g2.files = g.files ++ [x] →
      upload_file_to_gridfs digest guess fsys n2 false g2 st2 mi2
        = (some (toString x.id), g2,
           { st2 with duplicates_detected := st2.duplicates_detected + 1,
                      files_skipped := st2.files_skipped + 1 }) := by
    intro x hx g2 st2 hg2eq
    simp only [upload_file_to_gridfs, h4, gridfs_find_md5, hg2eq,
      Bool.false_eq_true, if_false]
    rw [List.find?_append, hg2]
    simp [hx]
  rw [e1]
  rw [e2 _ rfl _ rfl, e3, e4 _ rfl _ _ rfl]
  exact ⟨rfl, rfl, rfl, hone _ rfl, rfl, rfl, rfl, hone _ rfl⟩

theorem c6_content_dedup_witness :
    (upload_media_file demo_digest (fun _ => none) demo_fsys "t1"
        { files := [], next_id := 0 } "a/f1.jpg" "tw1" "photo").1
      = some (toString (0 : Nat)) ∧
    (upload_media_file demo_digest (fun _ => none) demo_fsys "t2"
        (upload_media_file demo_digest (fun _ => none) demo_fsys "t1"
          { files := [], next_id := 0 } "a/f1.jpg" "tw1" "photo").2
        "b/f2.jpg" "tw2" "photo").1
      = (upload_media_file demo_digest (fun _ => none) demo_fsys "t1"
          { files := [], next_id := 0 } "a/f1.jpg" "tw1" "photo").1 ∧
    ((upload_media_file demo_digest (fun _ => none) demo_fsys "t1"
        { files := [], next_id := 0 } "a/f1.jpg" "tw1" "photo").2.files.filter
          (fun f => f.md5 == demo_digest [1, 2])).length = 1 ∧
    (upload_file_to_gridfs demo_digest (fun _ => none) demo_fsys "t1" false
        { files := [], next_id := 0 } zero_uploader_stats demo_info1).1
      = some (toString (0 : Nat)) := by
  have h := c6_content_dedup demo_digest (fun _ => none) demo_fsys "t1" "t2"
    { files := [], next_id := 0 } "a/f1.jpg" "b/f2.jpg" "tw1" "tw2"
    "photo" "photo" [1, 2] zero_uploader_stats demo_info1 demo_info2
    (by decide) (by decide) (by decide) (by decide) (by decide)
  exact ⟨h.1, h.2.1, h.2.2.2.1, h.2.2.2.2.1⟩

end EndlessFeed
